import Mathlib

/-!
Shallow embedding of the product-description / order-management server:
the in-memory store `MemStorage` (storage module), the order and product
routes, and the confirmation-script / printable-HTML generators (routes
module), together with proofs of the specification's properties.

Modelling conventions:
* JS strings are Lean `String`, JS numbers in the data model are `Nat`
  (ids, quantities and timestamps are the only numbers the claims touch).
* `new Date()` and `randomUUID()` are inputs from the environment: each
  creating operation takes the current time as a `Nat` parameter, and ids
  are drawn from a per-store counter (`randomUUID` never collides).
* A JS value that may be `undefined`/`null` is an `Option`; `a || b` on
  strings and numbers is modelled by `jsOrStr` / `jsOrNat` (`""` and `0`
  are falsy), and on objects by `Option.getD` (objects are always truthy).
* Unvalidated JSON flowing in from the AI response or a request body is
  given the loosest type the code can actually store: in particular a
  `descriptions` object may be missing any of its three language keys
  (`PartialLangMap`), because the route only applies a TypeScript cast.
* A thrown-and-caught JS exception is an `Except.error`; an HTTP handler
  is a function from store and request to a `RouteResult` and new store.
-/

set_option maxRecDepth 40000

namespace ProductApp

/-- The three supported language codes (`Language` in the shared schema). -/
inductive Language where
  | ar
  | en
  | fr
deriving DecidableEq

/-- A JSON object holding one value per supported language: the shape of
`ProductDescriptions` / `ProductBenefits` / `ProductFeatures` when complete. -/
structure LangMap (α : Type) where
  ar : α
  en : α
  fr : α
deriving DecidableEq

/-- Index a complete language map with a language code. -/
def LangMap.get {α : Type} (m : LangMap α) : Language → α
  | .ar => m.ar
  | .en => m.en
  | .fr => m.fr

/-- A JSON object that may be missing any of the three language keys: what
the unvalidated AI response or PATCH body can actually contain (`none`
models an absent key, read back as `undefined` in JS). -/
structure PartialLangMap (α : Type) where
  ar? : Option α
  en? : Option α
  fr? : Option α
deriving DecidableEq

/-- Index a possibly-partial language map with a language code. -/
def PartialLangMap.get {α : Type} (m : PartialLangMap α) : Language → Option α
  | .ar => m.ar?
  | .en => m.en?
  | .fr => m.fr?

/-- Holds exactly when all three language keys are present: the
`descriptions` invariant the spec states. -/
def PartialLangMap.complete {α : Type} (m : PartialLangMap α) : Bool :=
  m.ar?.isSome && m.en?.isSome && m.fr?.isSome

/-- The default `{ar: [], en: [], fr: []}` object substituted for missing
`benefits` / `features`. -/
def bfDefault : LangMap (List String) := ⟨[], [], []⟩

/-- JS whitespace as stripped by `String.prototype.trim` (the ASCII part;
the template literals only ever have spaces and newlines at their ends). -/
def isJsWs (c : Char) : Bool :=
  c = ' ' || c = '\t' || c = '\n' || c = '\r'

/-- Left half of `String.prototype.trim` on the character list. -/
def trimLeftC (l : List Char) : List Char := l.dropWhile isJsWs

/-- Right half of `String.prototype.trim` on the character list. -/
def trimRightC (l : List Char) : List Char := (l.reverse.dropWhile isJsWs).reverse

/-- Model of `String.prototype.trim`. -/
def jsTrim (s : String) : String := ⟨trimRightC (trimLeftC s.data)⟩

/-- JS `v || d` for a possibly-absent string: `undefined`, `null` and `""`
are falsy. -/
def jsOrStr (v : Option String) (d : String) : String :=
  match v with
  | some s => if s = "" then d else s
  | none => d

/-- JS `v || d` for a possibly-absent number: `0` is falsy. -/
def jsOrNat (v : Option Nat) (d : Nat) : Nat :=
  match v with
  | some n => if n = 0 then d else n
  | none => d

/-- JS `v || null` for an optional string field: a falsy value
(`undefined` / `null` / `""`) is normalized to `null`. -/
def jsOrNull (v : Option String) : Option String :=
  match v with
  | some s => if s = "" then none else some s
  | none => none

/-- JS `v ? f v : ""` for an optional string: the conditional line pattern
of the template literals. -/
def jsCondStr (v : Option String) (f : String → String) : String :=
  match v with
  | some s => if s = "" then "" else f s
  | none => ""

/-- Truthiness of a possibly-absent JS string. -/
def jsTruthyStr : Option String → Bool
  | some s => s != ""
  | none => false

/-- JS template interpolation of a possibly-missing object property:
`undefined` prints as the string `"undefined"`. -/
def undefInterp (v : Option String) : String := v.getD "undefined"

/-- A stored product record (`Product` in the shared schema, as the
in-memory store can actually hold it). -/
structure Product where
  id : String
  name : String
  imageUrl : String
  descriptions : Option (PartialLangMap String)
  benefits : Option (LangMap (List String))
  features : Option (LangMap (List String))
  price : Option String
  category : Option String
  createdAt : Nat
deriving DecidableEq

/-- Input to `createProduct` (`InsertProduct`). -/
structure InsertProduct where
  name : String
  imageUrl : String
  descriptions : Option (PartialLangMap String)
  benefits : Option (LangMap (List String)) := none
  features : Option (LangMap (List String)) := none
  price : Option String := none
  category : Option String := none
deriving DecidableEq

/-- Input to `updateProduct` (`Partial<InsertProduct>`): an outer `none`
means the field is absent from the update object, so the spread
`{...product, ...updates}` keeps the stored value. -/
structure ProductUpdate where
  name : Option String := none
  imageUrl : Option String := none
  descriptions : Option (PartialLangMap String) := none
  benefits : Option (LangMap (List String)) := none
  features : Option (LangMap (List String)) := none
  price : Option (Option String) := none
  category : Option (Option String) := none
deriving DecidableEq

/-- A stored order record (`Order` in the shared schema). -/
structure Order where
  id : String
  productId : String
  customerName : String
  customerPhone : String
  customerAddress : Option String
  customerCity : Option String
  notes : Option String
  quantity : Nat
  status : String
  confirmationScript : Option String
  language : String
  createdAt : Nat
deriving DecidableEq

/-- Input to `createOrder` (`InsertOrder & {confirmationScript?}`); the
store applies `||`-defaulting to the optional fields. -/
structure InsertOrder where
  productId : String
  customerName : String
  customerPhone : String
  customerAddress : Option String := none
  customerCity : Option String := none
  notes : Option String := none
  quantity : Option Nat := none
  status : Option String := none
  language : Option String := none
  confirmationScript : Option String := none
deriving DecidableEq

/-- Input to `updateOrder` (`Partial<Order>`): an outer `none` means the
field is absent from the update object. -/
structure OrderUpdate where
  id : Option String := none
  productId : Option String := none
  customerName : Option String := none
  customerPhone : Option String := none
  customerAddress : Option (Option String) := none
  customerCity : Option (Option String) := none
  notes : Option (Option String) := none
  quantity : Option Nat := none
  status : Option String := none
  confirmationScript : Option (Option String) := none
  language : Option String := none
  createdAt : Option Nat := none
deriving DecidableEq

/-- The `MemStorage` state: two insertion-ordered maps (a JS `Map`
iterates in insertion order, so a list keyed by the `id` field is a
faithful model) plus the id source. -/
structure Store where
  products : List Product
  orders : List Order
  nextId : Nat
deriving DecidableEq

/-- The store a fresh `MemStorage()` starts with. -/
def Store.empty : Store := ⟨[], [], 0⟩

/-- Model of `randomUUID()`: a fresh opaque id. -/
def freshId (n : Nat) : String := "id-" ++ toString n

/-- `MemStorage.getProduct`. -/
def getProduct (s : Store) (id : String) : Option Product :=
  s.products.find? (fun p => p.id == id)

/-- `MemStorage.createProduct`: assigns id and `createdAt`, keeps `price` /
`category` via `??`, and replaces a falsy `benefits` / `features` with the
`{ar: [], en: [], fr: []}` default (an object is always truthy, so only an
absent / null value is replaced). -/
def createProduct (s : Store) (ins : InsertProduct) (now : Nat) : Product × Store :=
  let p : Product :=
    { id := freshId s.nextId
      name := ins.name
      imageUrl := ins.imageUrl
      descriptions := ins.descriptions
      benefits := some (ins.benefits.getD bfDefault)
      features := some (ins.features.getD bfDefault)
      price := ins.price
      category := ins.category
      createdAt := now }
  (p, { s with products := s.products ++ [p], nextId := s.nextId + 1 })

/-- Ordering used by `getProducts` / `getOrders`: newest first. -/
def newestFirst (a b : Product) : Prop := b.createdAt ≤ a.createdAt

instance : DecidableRel newestFirst := fun a b => Nat.decLe b.createdAt a.createdAt

instance : IsTotal Product newestFirst :=
  ⟨fun a b => Nat.le_total b.createdAt a.createdAt⟩

instance : IsTrans Product newestFirst :=
  ⟨fun _ _ _ h₁ h₂ => Nat.le_trans h₂ h₁⟩

/-- `MemStorage.getProducts`: `Array.from(values()).sort((a, b) =>
dateB - dateA)`. `Array.prototype.sort` is guaranteed stable and this
comparator orders by descending `createdAt`, and a stable sort by a total
preorder is unique, so the stable `insertionSort` by `newestFirst` is the
exact function. -/
def getProducts (s : Store) : List Product :=
  List.insertionSort newestFirst s.products

/-- The spread `{...product, ...updates}` with the explicit
`benefits` / `features` recomputation of `MemStorage.updateProduct`:
`updates.benefits || product.benefits || default`. -/
def applyProductUpdate (p : Product) (u : ProductUpdate) : Product :=
  { id := p.id
    name := u.name.getD p.name
    imageUrl := u.imageUrl.getD p.imageUrl
    descriptions := match u.descriptions with
      | some d => some d
      | none => p.descriptions
    benefits := some (((u.benefits).orElse fun _ => p.benefits).getD bfDefault)
    features := some (((u.features).orElse fun _ => p.features).getD bfDefault)
    price := u.price.getD p.price
    category := u.category.getD p.category
    createdAt := p.createdAt }

/-- `MemStorage.updateProduct`: absent id yields `undefined` and leaves
the store untouched; otherwise the merged record replaces the stored one
in place. -/
def updateProduct (s : Store) (id : String) (u : ProductUpdate) :
    Option Product × Store :=
  match s.products.find? (fun p => p.id == id) with
  | none => (none, s)
  | some p =>
    let p' := applyProductUpdate p u
    (some p',
     { s with products := s.products.map fun q => if q.id == id then p' else q })

/-- `MemStorage.deleteProduct`: `Map.prototype.delete` removes the entry
and reports whether it existed. -/
def deleteProduct (s : Store) (id : String) : Bool × Store :=
  (s.products.any (fun p => p.id == id),
   { s with products := s.products.filter fun p => p.id != id })

/-- `MemStorage.getOrder`. -/
def getOrder (s : Store) (id : String) : Option Order :=
  s.orders.find? (fun o => o.id == id)

/-- `MemStorage.createOrder`: assigns id and `createdAt` and
`||`-defaults `status` / `quantity` / `language`, normalizing the other
optional fields to `null` when falsy. -/
def createOrder (s : Store) (ins : InsertOrder) (now : Nat) : Order × Store :=
  let o : Order :=
    { id := freshId s.nextId
      productId := ins.productId
      customerName := ins.customerName
      customerPhone := ins.customerPhone
      customerAddress := jsOrNull ins.customerAddress
      customerCity := jsOrNull ins.customerCity
      notes := jsOrNull ins.notes
      quantity := jsOrNat ins.quantity 1
      status := jsOrStr ins.status "pending"
      confirmationScript := jsOrNull ins.confirmationScript
      language := jsOrStr ins.language "ar"
      createdAt := now }
  (o, { s with orders := s.orders ++ [o], nextId := s.nextId + 1 })

/-- The shallow merge `{...order, ...updates}` of `MemStorage.updateOrder`. -/
def applyOrderUpdate (o : Order) (u : OrderUpdate) : Order :=
  { id := u.id.getD o.id
    productId := u.productId.getD o.productId
    customerName := u.customerName.getD o.customerName
    customerPhone := u.customerPhone.getD o.customerPhone
    customerAddress := u.customerAddress.getD o.customerAddress
    customerCity := u.customerCity.getD o.customerCity
    notes := u.notes.getD o.notes
    quantity := u.quantity.getD o.quantity
    status := u.status.getD o.status
    confirmationScript := u.confirmationScript.getD o.confirmationScript
    language := u.language.getD o.language
    createdAt := u.createdAt.getD o.createdAt }

/-- `MemStorage.updateOrder`: absent id yields `undefined`; otherwise the
shallow merge replaces the stored record under the same map key. -/
def updateOrder (s : Store) (id : String) (u : OrderUpdate) :
    Option Order × Store :=
  match s.orders.find? (fun o => o.id == id) with
  | none => (none, s)
  | some o =>
    let o' := applyOrderUpdate o u
    (some o',
     { s with orders := s.orders.map fun q => if q.id == id then o' else q })

/-- The customer argument of `generateConfirmationScript`, as the order
route builds it (with `quantity` already `||`-defaulted to 1). -/
structure ScriptCustomer where
  customerName : String
  customerPhone : String
  customerAddress : Option String := none
  customerCity : Option String := none
  quantity : Nat
deriving DecidableEq

/-- Fixed opening of the Arabic template literal, up to the first
interpolation. -/
def arLead : String := "\nالسلام عليكم "

/-- Fixed closing of the Arabic template literal, after the last
interpolation (including the indentation before the closing backtick). -/
def arTail : String := "\n\nهل تؤكد هذا الطلب؟\n\nنحن في انتظار ردك.\nشكراً لثقتكم بنا.\n    "

/-- Interpolated middle of the Arabic template. -/
def arMid (p : Product) (d : PartialLangMap String) (c : ScriptCustomer) : String :=
  c.customerName ++ "،\n\nأشكرك على اهتمامك بمنتجنا.\n\nتفاصيل طلبك:\nالمنتج: " ++
  p.name ++ "\nالكمية: " ++ toString c.quantity ++ "\n" ++
  jsCondStr p.price (fun pr => "السعر: " ++ pr) ++
  "\n\nوصف المنتج:\n" ++ undefInterp d.ar? ++ "\n\n" ++
  jsCondStr c.customerCity (fun ci => "المدينة: " ++ ci) ++ "\n" ++
  jsCondStr c.customerAddress (fun ad => "العنوان: " ++ ad)

/-- The Arabic confirmation script (`scripts.ar`). -/
def arScript (p : Product) (d : PartialLangMap String) (c : ScriptCustomer) : String :=
  jsTrim (arLead ++ arMid p d c ++ arTail)

/-- Fixed opening of the English template literal. -/
def enLead : String := "\nHello "

/-- Fixed closing of the English template literal. -/
def enTail : String := "\n\nDo you confirm this order?\n\nWe look forward to your response.\nThank you for your trust.\n    "

/-- Interpolated middle of the English template. -/
def enMid (p : Product) (d : PartialLangMap String) (c : ScriptCustomer) : String :=
  c.customerName ++ ",\n\nThank you for your interest in our product.\n\nOrder Details:\nProduct: " ++
  p.name ++ "\nQuantity: " ++ toString c.quantity ++ "\n" ++
  jsCondStr p.price (fun pr => "Price: " ++ pr) ++
  "\n\nProduct Description:\n" ++ undefInterp d.en? ++ "\n\n" ++
  jsCondStr c.customerCity (fun ci => "City: " ++ ci) ++ "\n" ++
  jsCondStr c.customerAddress (fun ad => "Address: " ++ ad)

/-- The English confirmation script (`scripts.en`). -/
def enScript (p : Product) (d : PartialLangMap String) (c : ScriptCustomer) : String :=
  jsTrim (enLead ++ enMid p d c ++ enTail)

/-- Fixed opening of the French template literal. -/
def frLead : String := "\nBonjour "

/-- Fixed closing of the French template literal. -/
def frTail : String := "\n\nConfirmez-vous cette commande?\n\nNous attendons votre réponse.\nMerci pour votre confiance.\n    "

/-- Interpolated middle of the French template. -/
def frMid (p : Product) (d : PartialLangMap String) (c : ScriptCustomer) : String :=
  c.customerName ++ ",\n\nMerci pour votre intérêt pour notre produit.\n\nDétails de la commande:\nProduit: " ++
  p.name ++ "\nQuantité: " ++ toString c.quantity ++ "\n" ++
  jsCondStr p.price (fun pr => "Prix: " ++ pr) ++
  "\n\nDescription du produit:\n" ++ undefInterp d.fr? ++ "\n\n" ++
  jsCondStr c.customerCity (fun ci => "Ville: " ++ ci) ++ "\n" ++
  jsCondStr c.customerAddress (fun ad => "Adresse: " ++ ad)

/-- The French confirmation script (`scripts.fr`). -/
def frScript (p : Product) (d : PartialLangMap String) (c : ScriptCustomer) : String :=
  jsTrim (frLead ++ frMid p d c ++ frTail)

/-- `generateConfirmationScript`: building the `scripts` object evaluates
all three templates, so an absent `descriptions` object throws a
`TypeError` whatever the language (the `error` branch); the final
`scripts[lang]` lookup yields `undefined` (`ok none`) for a language
outside the three supported keys, because `lang` arrives from the request
body with no runtime validation. This is the `scripts[lang]` lookup. -/
def scriptsLookup (p : Product) (d : PartialLangMap String) (c : ScriptCustomer)
    (lang : String) : Option String :=
  if lang = "ar" then some (arScript p d c)
  else if lang = "en" then some (enScript p d c)
  else if lang = "fr" then some (frScript p d c)
  else none

/-- Body of `generateConfirmationScript` given the key lookup above. -/
def generateConfirmationScript (p : Product) (c : ScriptCustomer) (lang : String) :
    Except String (Option String) :=
  match p.descriptions with
  | none => .error "TypeError: cannot read properties of undefined"
  | some d => .ok (scriptsLookup p d c lang)

/-- Outcome of an HTTP handler, as far as the claims need it. -/
inductive RouteResult (α : Type) where
  | ok (value : α)
  | badRequest
  | notFound
  | serverError
deriving DecidableEq

/-- Body of `POST /api/orders` (unvalidated JSON: every field may be
absent, and `language` is a raw string). -/
structure OrderRequest where
  productId : Option String := none
  customerName : Option String := none
  customerPhone : Option String := none
  customerAddress : Option String := none
  customerCity : Option String := none
  notes : Option String := none
  quantity : Option Nat := none
  language : Option String := none
deriving DecidableEq

/-- The `POST /api/orders` handler: 400 when `productId` /
`customerName` / `customerPhone` is falsy, 404 when the product is
absent, 500 when script generation throws; otherwise it persists the
order with an explicit `status: "pending"` and the generated script. -/
def createOrderRoute (s : Store) (req : OrderRequest) (now : Nat) :
    RouteResult Order × Store :=
  if !(jsTruthyStr req.productId) || !(jsTruthyStr req.customerName) ||
      !(jsTruthyStr req.customerPhone) then
    (.badRequest, s)
  else
    match getProduct s (req.productId.getD "") with
    | none => (.notFound, s)
    | some product =>
      match generateConfirmationScript product
          { customerName := req.customerName.getD ""
            customerPhone := req.customerPhone.getD ""
            customerAddress := req.customerAddress
            customerCity := req.customerCity
            quantity := jsOrNat req.quantity 1 }
          (jsOrStr req.language "ar") with
      | .error _ => (.serverError, s)
      | .ok script =>
        let r := createOrder s
          { productId := req.productId.getD ""
            customerName := req.customerName.getD ""
            customerPhone := req.customerPhone.getD ""
            customerAddress := req.customerAddress
            customerCity := req.customerCity
            notes := req.notes
            quantity := some (jsOrNat req.quantity 1)
            status := some "pending"
            language := some (jsOrStr req.language "ar")
            confirmationScript := script } now
        (.ok r.1, r.2)

/-- The parsed JSON the AI analysis returns (after code-fence stripping):
nothing guarantees any field is present or complete. -/
structure Analysis where
  name : Option String := none
  descriptions : Option (PartialLangMap String) := none
  benefits : Option (LangMap (List String)) := none
  features : Option (LangMap (List String)) := none
  price : Option String := none
  category : Option String := none
deriving DecidableEq

/-- The persistence step of `POST /api/products/analyze` once the AI
reply has parsed: `descriptions` is stored as-is (only a TypeScript cast,
no runtime check), while `benefits` / `features` / `price` / `category`
/ `name` get `||` defaults. -/
def analyzeCreate (s : Store) (a : Analysis) (imageUrl : String) (now : Nat) :
    Product × Store :=
  createProduct s
    { name := jsOrStr a.name "Unnamed Product"
      imageUrl := imageUrl
      descriptions := a.descriptions
      benefits := some (a.benefits.getD bfDefault)
      features := some (a.features.getD bfDefault)
      price := jsOrNull a.price
      category := jsOrNull a.category } now

/-- The `PATCH /api/products/:id` handler: passes the request body
straight to `updateProduct`. -/
def updateProductRoute (s : Store) (id : String) (u : ProductUpdate) :
    RouteResult Product × Store :=
  match updateProduct s id u with
  | (none, s') => (.notFound, s')
  | (some p, s') => (.ok p, s')

/-- Language code as interpolated into the `lang` attribute. -/
def langCode : Language → String
  | .ar => "ar"
  | .en => "en"
  | .fr => "fr"

/-- Text direction: `rtl` for Arabic, `ltr` otherwise. -/
def dirStr (lang : Language) : String :=
  if lang = .ar then "rtl" else "ltr"

/-- The per-language label table of `generateProductPDF`. -/
structure PdfLabels where
  product : String
  name : String
  price : String
  category : String
  description : String
  benefits : String
  features : String
deriving DecidableEq

/-- The `labels` record of `generateProductPDF`. -/
def pdfLabels : Language → PdfLabels
  | .ar => ⟨"تفاصيل المنتج", "الاسم", "السعر", "الفئة", "الوصف", "الفوائد", "الميزات"⟩
  | .en => ⟨"Product Details", "Name", "Price", "Category", "Description", "Benefits", "Features"⟩
  | .fr => ⟨"Détails du Produit", "Nom", "Prix", "Catégorie", "Description", "Avantages", "Caractéristiques"⟩

/-- The fixed `<style>` block of the product document (brace characters
written with their escapes). -/
def pdfCss : String :=
  "    * \x7b margin: 0; padding: 0; box-sizing: border-box; \x7d\n" ++
  "    body \x7b font-family: Arial, sans-serif; padding: 40px; max-width: 800px; margin: 0 auto; background: #fff; color: #333; line-height: 1.6; \x7d\n" ++
  "    .header \x7b text-align: center; margin-bottom: 30px; padding-bottom: 20px; border-bottom: 2px solid #eee; \x7d\n" ++
  "    .header h1 \x7b font-size: 28px; color: #1a56db; margin-bottom: 10px; font-weight: bold; \x7d\n" ++
  "    .product-image \x7b text-align: center; margin-bottom: 30px; \x7d\n" ++
  "    .product-image img \x7b max-width: 400px; max-height: 400px; object-fit: cover; border-radius: 8px; box-shadow: 0 4px 6px rgba(0,0,0,0.1); \x7d\n" ++
  "    .details \x7b margin-bottom: 30px; \x7d\n" ++
  "    .detail-row \x7b display: flex; margin-bottom: 15px; padding: 10px; background: #f9fafb; border-radius: 6px; \x7d\n" ++
  "    .detail-label \x7b font-weight: bold; min-width: 120px; color: #6b7280; \x7d\n" ++
  "    .detail-value \x7b flex: 1; \x7d\n" ++
  "    .description \x7b margin-top: 20px; padding: 20px; background: #f0f9ff; border-radius: 8px; line-height: 1.8; border-left: 4px solid #1a56db; \x7d\n" ++
  "    .section \x7b margin-top: 30px; padding: 20px; background: #fafafa; border-radius: 8px; \x7d\n" ++
  "    .section h2 \x7b font-size: 20px; color: #1a56db; margin-bottom: 15px; border-bottom: 2px solid #e5e7eb; padding-bottom: 10px; \x7d\n" ++
  "    .list \x7b margin-left: 20px; \x7d\n" ++
  "    .list li \x7b margin-bottom: 12px; line-height: 1.6; \x7d\n" ++
  "    .footer \x7b text-align: center; margin-top: 40px; padding-top: 20px; border-top: 2px solid #eee; color: #9ca3af; font-size: 12px; \x7d\n" ++
  "    @media print \x7b body \x7b padding: 20px; \x7d \x7d\n"

/-- The `benefitsHTML` / `featuresHTML` section template. -/
def sectionHTML (title : String) (items : List String) : String :=
  "\n  <div class=\"section\">\n    <h2>" ++ title ++
  "</h2>\n    <ul class=\"list\">\n      " ++
  String.join (items.map fun it => "<li>" ++ it ++ "</li>") ++
  "\n    </ul>\n  </div>"

/-- `benefitsHTML`: rendered only when optional chaining finds a
non-empty list for the language. -/
def optionalSection (m : Option (LangMap (List String))) (lang : Language)
    (title : String) : String :=
  match m with
  | none => ""
  | some mm => if 0 < (mm.get lang).length then sectionHTML title (mm.get lang) else ""

/-- Fixed opening of the product-document template literal, up to the
first interpolation. -/
def pdfLead : String := "\n<!DOCTYPE html>\n<html dir=\""

/-- Fixed closing of the product-document template literal, after the
generation-date interpolation (including the indentation before the
closing backtick). -/
def pdfDateTail : String := "</p>\n  </div>\n</body>\n</html>\n  "

/-- Interpolated middle of the product-document template: everything
between the `dir` attribute value and the generation date of the footer.
Depends only on the product and the language. -/
def productPdfMid (p : Product) (d : PartialLangMap String) (lang : Language) : String :=
  let t := pdfLabels lang
  dirStr lang ++ "\" lang=\"" ++ langCode lang ++
  "\">\n<head>\n  <meta charset=\"UTF-8\">\n  <title>" ++ p.name ++
  "</title>\n  <style>\n" ++ pdfCss ++
  "  </style>\n</head>\n<body>\n  <div class=\"header\">\n    <h1>" ++ t.product ++
  "</h1>\n  </div>\n  <div class=\"product-image\">\n    <img src=\"" ++ p.imageUrl ++
  "\" alt=\"" ++ p.name ++
  "\">\n  </div>\n  <div class=\"details\">\n    <div class=\"detail-row\">\n      <span class=\"detail-label\">" ++
  t.name ++ ":</span>\n      <span class=\"detail-value\">" ++ p.name ++
  "</span>\n    </div>\n    " ++
  jsCondStr p.price (fun pr =>
    "\n    <div class=\"detail-row\">\n      <span class=\"detail-label\">" ++ t.price ++
    ":</span>\n      <span class=\"detail-value\">" ++ pr ++ "</span>\n    </div>") ++
  "\n    " ++
  jsCondStr p.category (fun ca =>
    "\n    <div class=\"detail-row\">\n      <span class=\"detail-label\">" ++ t.category ++
    ":</span>\n      <span class=\"detail-value\">" ++ ca ++ "</span>\n    </div>") ++
  "\n  </div>\n  <div class=\"description\">\n    <strong>" ++ t.description ++
  ":</strong>\n    <p style=\"margin-top: 10px;\">" ++ undefInterp (d.get lang) ++
  "</p>\n  </div>\n  " ++
  optionalSection p.benefits lang t.benefits ++ "\n  " ++
  optionalSection p.features lang t.features ++
  "\n  <div class=\"footer\">\n    <p>ProductAI - "

/-- `generateProductPDF`: the printable HTML document for a product. The
generation date of the footer (`new Date().toLocaleDateString(...)`) is
the `today` parameter — the only input besides the product and language.
Indexing an absent `descriptions` object throws (`error`). -/
def generateProductPDF (p : Product) (lang : Language) (today : String) :
    Except String String :=
  match p.descriptions with
  | none => .error "TypeError: cannot read properties of undefined"
  | some d => .ok (jsTrim (pdfLead ++ productPdfMid p d lang ++ today ++ pdfDateTail))

/-! Lemmas about `jsTrim`: trimming a template whose fixed opening and
closing pieces contain non-whitespace characters only shortens those
pieces. -/

lemma trimLeftC_append {l₁ l₂ : List Char} (h : trimLeftC l₁ ≠ []) :
    trimLeftC (l₁ ++ l₂) = trimLeftC l₁ ++ l₂ := by
  have h' : ¬(l₁.dropWhile isJsWs).isEmpty := by
    simpa [trimLeftC, List.isEmpty_iff] using h
  simp [trimLeftC, List.dropWhile_append, h']

lemma trimRightC_append {l₁ l₂ : List Char} (h : trimRightC l₂ ≠ []) :
    trimRightC (l₁ ++ l₂) = l₁ ++ trimRightC l₂ := by
  have h' : ¬(l₂.reverse.dropWhile isJsWs).isEmpty := by
    simpa [trimRightC, List.isEmpty_iff, List.reverse_eq_nil_iff] using h
  simp [trimRightC, List.reverse_append, List.dropWhile_append, h']

/-- Character-level effect of `jsTrim` on a template of the form
`lead ++ mid ++ tail` whose `lead` and `tail` are not all-whitespace:
only the fixed ends are trimmed, the interpolated middle survives
verbatim. -/
lemma jsTrim_data (lead mid tail : String)
    (hL : trimLeftC lead.data ≠ []) (hR : trimRightC tail.data ≠ []) :
    (jsTrim (lead ++ mid ++ tail)).data =
      trimLeftC lead.data ++ (mid.data ++ trimRightC tail.data) := by
  show trimRightC (trimLeftC (lead ++ mid ++ tail).data) = _
  rw [String.data_append, String.data_append, List.append_assoc,
    trimLeftC_append hL, ← List.append_assoc, trimRightC_append hR]
  simp

/-- A string containing a non-whitespace character does not trim to the
empty string. -/
lemma jsTrim_ne_empty {s : String} (c : Char) (hc : c ∈ s.data)
    (hw : isJsWs c = false) : jsTrim s ≠ "" := by
  intro he
  have hnil : trimRightC (trimLeftC s.data) = [] := congrArg String.data he
  rw [← List.takeWhile_append_dropWhile isJsWs s.data] at hc
  rcases List.mem_append.1 hc with h1 | h2
  · have := List.mem_takeWhile_imp h1
    rw [hw] at this
    exact Bool.noConfusion this
  · have hall : ∀ x ∈ (trimLeftC s.data).reverse, isJsWs x := by
      have hdw : (trimLeftC s.data).reverse.dropWhile isJsWs = [] := by
        simpa [trimRightC, List.reverse_eq_nil_iff] using hnil
      exact fun x hx => List.dropWhile_eq_nil_iff.1 hdw x hx
    have := hall c (List.mem_reverse.2 h2)
    rw [hw] at this
    exact Bool.noConfusion this

/-! Lemmas about substring (infix) occurrence across concatenation
boundaries. -/

lemma infix_extend_right {α : Type} {sub l l' : List α} (h : sub <:+: l) :
    sub <:+: l ++ l' := by
  obtain ⟨s, t, rfl⟩ := h
  exact ⟨s, t ++ l', by simp⟩

lemma infix_extend_left {α : Type} {sub l l' : List α} (h : sub <:+: l) :
    sub <:+: l' ++ l := by
  obtain ⟨s, t, rfl⟩ := h
  exact ⟨l' ++ s, t, by simp⟩

/-- A substring that avoids the separator character cannot straddle it:
an occurrence in `A ++ c :: B` lies wholly in `A` or wholly in `B`. -/
lemma infix_split_at_sep {α : Type} {sub A B : List α} {c : α} (hc : c ∉ sub)
    (h : sub <:+: A ++ c :: B) : sub <:+: A ∨ sub <:+: B := by
  obtain ⟨t₁, t₂, heq⟩ := h
  have heq' : t₁ ++ (sub ++ t₂) = A ++ c :: B := by simpa using heq
  rcases List.append_eq_append_iff.1 heq' with ⟨a', hA, hrest⟩ | ⟨c', hT, hrest⟩
  · rcases List.append_eq_append_iff.1 hrest with ⟨s', ha', _⟩ | ⟨k, hsub, hcb⟩
    · exact Or.inl ⟨t₁, s', by rw [hA, ha']; simp⟩
    · cases k with
      | nil =>
        exact Or.inl ⟨t₁, [], by simp [hA, hsub]⟩
      | cons k0 ks =>
        rw [List.cons_append] at hcb
        injection hcb with h1 _
        exact absurd (show c ∈ sub by
          rw [hsub, h1]
          exact List.mem_append_right _ (List.mem_cons_self _ _)) hc
  · cases c' with
    | nil =>
      simp only [List.nil_append] at hrest
      cases sub with
      | nil => exact Or.inr ⟨[], B, by simp⟩
      | cons s0 ss =>
        rw [List.cons_append] at hrest
        injection hrest with h1 _
        exact absurd (show c ∈ s0 :: ss by
          rw [h1]
          exact List.mem_cons_self _ _) hc
    | cons c0 cs =>
      rw [List.cons_append] at hrest
      injection hrest with _ h2
      exact Or.inr ⟨cs, t₂, by rw [h2]; simp⟩

/-! Concrete fixtures used by witnesses and counterexamples. -/

/-- A complete three-language description object. -/
def demoDesc : PartialLangMap String :=
  ⟨some "كرسي خشبي كلاسيكي.", some "A classic wooden chair.", some "Une chaise en bois."⟩

/-- A stored product as the analyze flow would create it. -/
def demoProduct : Product :=
  { id := "id-0"
    name := "Chair"
    imageUrl := "/uploads/chair.png"
    descriptions := some demoDesc
    benefits := some bfDefault
    features := some bfDefault
    price := some "$50"
    category := none
    createdAt := 10 }

/-- A store holding just `demoProduct`. -/
def demoStore : Store := ⟨[demoProduct], [], 1⟩

/-- A stored pending order for `demoProduct`. -/
def demoOrder : Order :=
  { id := "id-1"
    productId := "id-0"
    customerName := "Ali"
    customerPhone := "555"
    customerAddress := none
    customerCity := none
    notes := none
    quantity := 2
    status := "pending"
    confirmationScript := some "script"
    language := "en"
    createdAt := 11 }

/-- A store holding `demoProduct` and `demoOrder`. -/
def demoOrderStore : Store := ⟨[demoProduct], [demoOrder], 2⟩

/-- A minimal product-creation input. -/
def demoInsert : InsertProduct :=
  { name := "A", imageUrl := "/uploads/a.png", descriptions := none }

/-- C7: `updateProduct` on an id not present among the stored products
returns the absent value (`undefined`, not an exception) and leaves the
store — in particular the set of stored products — unchanged. -/
theorem c7_update_absent_product (s : Store) (id : String) (u : ProductUpdate)
    (h : ∀ p ∈ s.products, p.id ≠ id) :
    updateProduct s id u = (none, s) := by
  unfold updateProduct
  have hf : s.products.find? (fun p => p.id == id) = none :=
    List.find?_eq_none.mpr fun p hp => by simp [h p hp]
  rw [hf]

/-- Witness for C7 at a concrete store and absent id. -/
theorem c7_update_absent_product_witness :
    updateProduct demoStore "missing" {} = (none, demoStore) :=
  c7_update_absent_product demoStore "missing" {} (by decide)

/-- C8: `deleteProduct` returns `false` for an id that is not among the
stored products (never created or already deleted) and leaves the store
unchanged; for a present id it returns `true`, and a second delete of the
same id then returns `false`. -/
theorem c8_delete_once (s : Store) (id : String) :
    ((∀ p ∈ s.products, p.id ≠ id) → deleteProduct s id = (false, s)) ∧
    ((∃ p ∈ s.products, p.id = id) →
      (deleteProduct s id).1 = true ∧
      (deleteProduct (deleteProduct s id).2 id).1 = false) := by
  constructor
  · intro h
    unfold deleteProduct
    have h1 : s.products.any (fun p => p.id == id) = false :=
      List.any_eq_false.mpr fun p hp => by simp [h p hp]
    have h2 : s.products.filter (fun p => p.id != id) = s.products :=
      List.filter_eq_self.mpr fun p hp => by simp [h p hp]
    rw [h1, h2]
  · rintro ⟨p, hp, hid⟩
    constructor
    · exact List.any_eq_true.mpr ⟨p, hp, by simp [hid]⟩
    · apply List.any_eq_false.mpr
      intro q hq
      have hne := (List.mem_filter.1 hq).2
      simp only [bne_iff_ne, ne_eq] at hne
      simp [hne]

/-- Witness for C8: deleting an absent id, then deleting a present id
twice. -/
theorem c8_delete_once_witness :
    deleteProduct demoStore "missing" = (false, demoStore) ∧
    ((deleteProduct demoStore "id-0").1 = true ∧
      (deleteProduct (deleteProduct demoStore "id-0").2 "id-0").1 = false) :=
  ⟨(c8_delete_once demoStore "missing").1 (by decide),
   (c8_delete_once demoStore "id-0").2 ⟨demoProduct, by decide, rfl⟩⟩

/-- The `{status: "confirmed"}` PATCH body. -/
def confirmUpdate : OrderUpdate := { status := some "confirmed" }

/-- C5: `updateOrder(id, {status: "confirmed"})` on an existing pending
order changes exactly the status field: the result is the stored order
with `status` replaced and every other field (customerName, quantity,
confirmationScript, ...) untouched. -/
theorem c5_update_status_frame (s : Store) (id : String) (o : Order)
    (hfind : getOrder s id = some o) (hpending : o.status = "pending") :
    (updateOrder s id confirmUpdate).1 = some { o with status := "confirmed" } := by
  unfold getOrder at hfind
  unfold updateOrder
  rw [hfind]
  simp [applyOrderUpdate, confirmUpdate]

/-- Witness for C5 at a concrete pending order. -/
theorem c5_update_status_frame_witness :
    (updateOrder demoOrderStore "id-1" confirmUpdate).1 =
      some { demoOrder with status := "confirmed" } :=
  c5_update_status_frame demoOrderStore "id-1" demoOrder (by decide) rfl

/-- C9: `createProduct` always stores non-null `benefits` / `features`,
and `updateProduct` on an existing product whose update supplies a
falsy (absent / null / undefined) `benefits` / `features` keeps the
previously stored object (or the `{ar: [], en: [], fr: []}` default),
never storing the empty value. -/
theorem c9_benefits_features_nonnull (s : Store) (ins : InsertProduct) (now : Nat)
    (id : String) (u : ProductUpdate) (p : Product)
    (hfind : getProduct s id = some p)
    (hb : u.benefits = none) (hf : u.features = none) :
    ((createProduct s ins now).1.benefits.isSome ∧
     (createProduct s ins now).1.features.isSome) ∧
    ((updateProduct s id u).1 = some (applyProductUpdate p u) ∧
     (applyProductUpdate p u).benefits = some (p.benefits.getD bfDefault) ∧
     (applyProductUpdate p u).features = some (p.features.getD bfDefault)) := by
  unfold getProduct at hfind
  refine ⟨⟨by simp [createProduct], by simp [createProduct]⟩, ?_, ?_, ?_⟩
  · unfold updateProduct
    rw [hfind]
  · simp [applyProductUpdate, hb]
  · simp [applyProductUpdate, hf]

/-- Witness for C9 at a concrete store, insert and empty update. -/
theorem c9_benefits_features_nonnull_witness :
    (((createProduct demoStore demoInsert 5).1.benefits.isSome ∧
      (createProduct demoStore demoInsert 5).1.features.isSome) ∧
     ((updateProduct demoStore "id-0" {}).1 =
        some (applyProductUpdate demoProduct {}) ∧
      (applyProductUpdate demoProduct {}).benefits =
        some (demoProduct.benefits.getD bfDefault) ∧
      (applyProductUpdate demoProduct {}).features =
        some (demoProduct.features.getD bfDefault))) :=
  c9_benefits_features_nonnull demoStore demoInsert 5 "id-0" {} demoProduct
    (by decide) rfl rfl

/-- An order-creation input with all three defaulted fields present but
falsy. -/
def falsyOrder : InsertOrder :=
  { productId := "id-0"
    customerName := "Ali"
    customerPhone := "555"
    quantity := some 0
    status := some ""
    language := some "" }

/-- C10: `createOrder` coerces every falsy value of the defaulted fields,
not only the absent value: `quantity: 0` is stored as `1`, `status: ""`
as `"pending"`, `language: ""` as `"ar"`. -/
theorem c10_falsy_defaults (s₁ s₂ s₃ : Store) (i₁ i₂ i₃ : InsertOrder)
    (t₁ t₂ t₃ : Nat)
    (hq : i₁.quantity = some 0) (hs : i₂.status = some "")
    (hl : i₃.language = some "") :
    (createOrder s₁ i₁ t₁).1.quantity = 1 ∧
    (createOrder s₂ i₂ t₂).1.status = "pending" ∧
    (createOrder s₃ i₃ t₃).1.language = "ar" := by
  refine ⟨?_, ?_, ?_⟩ <;> simp [createOrder, jsOrNat, jsOrStr, hq, hs, hl]

/-- Witness for C10 at a concrete all-falsy input. -/
theorem c10_falsy_defaults_witness :
    (createOrder demoStore falsyOrder 9).1.quantity = 1 ∧
    (createOrder demoStore falsyOrder 9).1.status = "pending" ∧
    (createOrder demoStore falsyOrder 9).1.language = "ar" :=
  c10_falsy_defaults demoStore demoStore demoStore falsyOrder falsyOrder
    falsyOrder 9 9 9 rfl rfl rfl

/-! C4 fixtures: three successive product creations starting from a
fresh store, with the creation timestamps as parameters (`new Date()`
has millisecond resolution, so consecutive creations may tie). -/

/-- Store after creating A then B then C. -/
def abcStore (iA iB iC : InsertProduct) (tA tB tC : Nat) : Store :=
  (createProduct (createProduct (createProduct Store.empty iA tA).2 iB tB).2 iC tC).2

/-- The record created first. -/
def abcA (iA : InsertProduct) (tA : Nat) : Product :=
  (createProduct Store.empty iA tA).1

/-- The record created second. -/
def abcB (iA iB : InsertProduct) (tA tB : Nat) : Product :=
  (createProduct (createProduct Store.empty iA tA).2 iB tB).1

/-- The record created third. -/
def abcC (iA iB iC : InsertProduct) (tA tB tC : Nat) : Product :=
  (createProduct (createProduct (createProduct Store.empty iA tA).2 iB tB).2 iC tC).1

/-- C4 (amended): `getProducts` returns a permutation of the stored
products sorted by `createdAt` descending, and inserting A then B then C
with strictly increasing timestamps yields the order C, B, A. (When
timestamps tie, the stable sort keeps insertion order instead — see the
counterexample.) -/
theorem c4_sorted_newest_first (s : Store) (iA iB iC : InsertProduct)
    (tA tB tC : Nat) (hAB : tA < tB) (hBC : tB < tC) :
    List.Sorted newestFirst (getProducts s) ∧
    List.Perm (getProducts s) s.products ∧
    getProducts (abcStore iA iB iC tA tB tC) =
      [abcC iA iB iC tA tB tC, abcB iA iB tA tB, abcA iA tA] := by
  refine ⟨List.sorted_insertionSort _ _, List.perm_insertionSort _ _, ?_⟩
  have h1 : (abcStore iA iB iC tA tB tC).products =
      [abcA iA tA, abcB iA iB tA tB, abcC iA iB iC tA tB tC] := rfl
  have hcA : (abcA iA tA).createdAt = tA := rfl
  have hcB : (abcB iA iB tA tB).createdAt = tB := rfl
  have hcC : (abcC iA iB iC tA tB tC).createdAt = tC := rfl
  have nBC : ¬ tC ≤ tB := by omega
  have nAC : ¬ tC ≤ tA := by omega
  have nAB : ¬ tB ≤ tA := by omega
  rw [getProducts, h1]
  simp [List.insertionSort, List.orderedInsert, newestFirst, hcA, hcB, hcC,
    nBC, nAC, nAB]

/-- Creation input named A. -/
def insA : InsertProduct := { name := "A", imageUrl := "", descriptions := none }

/-- Creation input named B. -/
def insB : InsertProduct := { name := "B", imageUrl := "", descriptions := none }

/-- Creation input named C. -/
def insC : InsertProduct := { name := "C", imageUrl := "", descriptions := none }

/-- Store after creating A, B, C in the same millisecond. -/
def tieStore : Store := abcStore insA insB insC 5 5 5

/-- Counterexample to C4 as stated: when the three creations share one
`createdAt` value (the comparator returns 0 and the guaranteed-stable JS
sort keeps insertion order), `getProducts` returns A, B, C — not C, B, A. -/
theorem c4_counterexample :
    (getProducts tieStore).map Product.name = ["A", "B", "C"] ∧
    (getProducts tieStore).map Product.name ≠ ["C", "B", "A"] :=
  ⟨by decide, by decide⟩

/-- Witness for C4 at concrete strictly increasing timestamps. -/
theorem c4_sorted_newest_first_witness :
    List.Sorted newestFirst (getProducts demoStore) ∧
    List.Perm (getProducts demoStore) demoStore.products ∧
    getProducts (abcStore insA insB insC 1 2 3) =
      [abcC insA insB insC 1 2 3, abcB insA insB 1 2, abcA insA 1] :=
  c4_sorted_newest_first demoStore insA insB insC 1 2 3 (by decide) (by decide)

/-- Whether a possibly-absent descriptions object is present with all
three language keys resolving — the invariant C2 states. -/
def descOk (d : Option (PartialLangMap String)) : Bool :=
  match d with
  | some m => m.complete
  | none => false

/-- A parsed AI reply whose descriptions object has only the `ar` key. -/
def badAnalysis : Analysis :=
  { name := some "X", descriptions := some ⟨some "only ar", none, none⟩ }

/-- The product the analyze route stores for `badAnalysis`. -/
def c2Product : Product :=
  (analyzeCreate Store.empty badAnalysis "/uploads/x.png" 3).1

/-- The store after that analyze call. -/
def c2State : Store :=
  (analyzeCreate Store.empty badAnalysis "/uploads/x.png" 3).2

/-- Counterexample to C2 as stated: the analyze route persists the parsed
`descriptions` with only a compile-time cast, so a reply missing the
`en` / `fr` keys yields a reachable stored product whose `descriptions`
does not contain all three language keys. -/
theorem c2_counterexample :
    c2Product ∈ c2State.products ∧ descOk c2Product.descriptions = false :=
  ⟨by decide, by decide⟩

/-- C2 (amended): the three-key `descriptions` invariant is preserved but
not enforced: a product created from an analysis whose descriptions
object is complete is stored complete, and an update that omits
`descriptions` (or supplies a complete object) keeps a complete product
complete; an incomplete supplied object, however, is stored as-is (see
the counterexample). -/
theorem c2_descriptions_preserved (s : Store) (a : Analysis) (url : String)
    (t : Nat) (id : String) (u : ProductUpdate) (p : Product)
    (ha : descOk a.descriptions = true)
    (hp : getProduct s id = some p) (hdp : descOk p.descriptions = true)
    (hu : u.descriptions = none ∨ descOk u.descriptions = true) :
    descOk (analyzeCreate s a url t).1.descriptions = true ∧
    (updateProduct s id u).1 = some (applyProductUpdate p u) ∧
    descOk (applyProductUpdate p u).descriptions = true := by
  unfold getProduct at hp
  refine ⟨by simpa [analyzeCreate, createProduct] using ha, ?_, ?_⟩
  · unfold updateProduct
    rw [hp]
  · rcases hu with hu | hu
    · simpa [applyProductUpdate, hu] using hdp
    · cases hud : u.descriptions with
      | none => rw [hud] at hu; exact absurd hu (by simp [descOk])
      | some dm =>
        rw [hud] at hu
        simpa [applyProductUpdate, hud, descOk] using hu

/-- A parsed AI reply with a complete descriptions object. -/
def goodAnalysis : Analysis :=
  { name := some "X", descriptions := some demoDesc }

/-- Witness for C2 (amended) at a concrete complete analysis and an
update that omits `descriptions`. -/
theorem c2_descriptions_preserved_witness :
    descOk (analyzeCreate demoStore goodAnalysis "/uploads/x.png" 4).1.descriptions = true ∧
    (updateProduct demoStore "id-0" {}).1 = some (applyProductUpdate demoProduct {}) ∧
    descOk (applyProductUpdate demoProduct {}).descriptions = true :=
  c2_descriptions_preserved demoStore goodAnalysis "/uploads/x.png" 4 "id-0" {}
    demoProduct rfl (by decide) rfl (Or.inl rfl)

/-! C3: every template opens with fixed non-whitespace text, so the
trimmed scripts are never empty. -/

lemma jsOrStr_some_ne {s d : String} (h : s ≠ "") : jsOrStr (some s) d = s := by
  simp [jsOrStr, h]

lemma jsOrNull_of_ne {s : String} (h : s ≠ "") : jsOrNull (some s) = some s := by
  simp [jsOrNull, h]

lemma arScript_ne_empty (p : Product) (d : PartialLangMap String)
    (c : ScriptCustomer) : arScript p d c ≠ "" := by
  apply jsTrim_ne_empty 'ا'
  · rw [String.data_append, String.data_append]
    exact List.mem_append_left _ (List.mem_append_left _ (by decide))
  · decide

lemma enScript_ne_empty (p : Product) (d : PartialLangMap String)
    (c : ScriptCustomer) : enScript p d c ≠ "" := by
  apply jsTrim_ne_empty 'H'
  · rw [String.data_append, String.data_append]
    exact List.mem_append_left _ (List.mem_append_left _ (by decide))
  · decide

lemma frScript_ne_empty (p : Product) (d : PartialLangMap String)
    (c : ScriptCustomer) : frScript p d c ≠ "" := by
  apply jsTrim_ne_empty 'B'
  · rw [String.data_append, String.data_append]
    exact List.mem_append_left _ (List.mem_append_left _ (by decide))
  · decide

lemma script_stored_ok {scr : String} (hne : scr ≠ "") {o : Order}
    (ho : o.confirmationScript = jsOrNull (some scr)) :
    o.confirmationScript ≠ none ∧ o.confirmationScript ≠ some "" := by
  rw [ho, jsOrNull_of_ne hne]
  exact ⟨by simp, by simp [hne]⟩

/-- For a supported (post-defaulting) language code, the `scripts[lang]`
lookup yields one of the three trimmed templates, which is never the
empty string. -/
lemma scriptsLookup_some (p : Product) (d : PartialLangMap String)
    (c : ScriptCustomer) {lang : String}
    (hlang : lang = "ar" ∨ lang = "en" ∨ lang = "fr") :
    ∃ scr, scriptsLookup p d c lang = some scr ∧ scr ≠ "" := by
  rcases hlang with h | h | h <;> subst h
  · exact ⟨_, by simp [scriptsLookup], arScript_ne_empty p d c⟩
  · exact ⟨_, by simp [scriptsLookup], enScript_ne_empty p d c⟩
  · exact ⟨_, by simp [scriptsLookup], frScript_ne_empty p d c⟩

/-- C3 (amended): every order the order-creation endpoint actually
creates has status `"pending"` and a non-empty confirmation script,
provided the requested language resolves (after `|| "ar"` defaulting) to
one of the three supported codes. (The endpoint does not validate
`language`; an unsupported code slips through the `Record` lookup as
`undefined` and is stored as a null script — see the counterexample.) -/
theorem c3_created_order (s : Store) (req : OrderRequest) (now : Nat)
    (o : Order) (s' : Store)
    (hlang : jsOrStr req.language "ar" = "ar" ∨ jsOrStr req.language "ar" = "en" ∨
      jsOrStr req.language "ar" = "fr")
    (h : createOrderRoute s req now = (RouteResult.ok o, s')) :
    o.status = "pending" ∧ o.confirmationScript ≠ none ∧
    o.confirmationScript ≠ some "" := by
  unfold createOrderRoute at h
  split at h
  · simp at h
  · split at h
    · simp at h
    · rename_i product hprod
      unfold generateConfirmationScript at h
      split at h
      · simp at h
      · rename_i script hscrEq
        split at hscrEq
        · simp at hscrEq
        · rename_i d hdesc
          replace hscrEq := Except.ok.inj hscrEq
          subst hscrEq
          obtain ⟨h1, _⟩ := (Prod.mk.injEq _ _ _ _).mp h
          replace h1 := RouteResult.ok.inj h1
          obtain ⟨scr, hscr, hne⟩ := scriptsLookup_some product d
            { customerName := req.customerName.getD ""
              customerPhone := req.customerPhone.getD ""
              customerAddress := req.customerAddress
              customerCity := req.customerCity
              quantity := jsOrNat req.quantity 1 } hlang
          have ho : o.confirmationScript =
              jsOrNull (scriptsLookup product d
                { customerName := req.customerName.getD ""
                  customerPhone := req.customerPhone.getD ""
                  customerAddress := req.customerAddress
                  customerCity := req.customerCity
                  quantity := jsOrNat req.quantity 1 }
                (jsOrStr req.language "ar")) := by
            rw [← h1]
            rfl
          have hcs : o.confirmationScript = some scr := by
            rw [ho, hscr, jsOrNull_of_ne hne]
          refine ⟨?_, ?_, ?_⟩
          · rw [← h1]
            show jsOrStr (some "pending") "pending" = "pending"
            exact jsOrStr_some_ne (by decide)
          · rw [hcs]
            simp
          · rw [hcs]
            simp [hne]

/-- A well-formed order request in English. -/
def enReq : OrderRequest :=
  { productId := some "id-0"
    customerName := some "Ali"
    customerPhone := some "555"
    quantity := some 2
    language := some "en" }

/-- Extracts the order of a successful route result (any fallback will
do for the other outcomes). -/
def okOrder (r : RouteResult Order) : Order :=
  match r with
  | .ok o => o
  | _ => demoOrder

/-- Witness for C3 (amended) at a concrete request against `demoStore`. -/
theorem c3_created_order_witness :
    (okOrder (createOrderRoute demoStore enReq 7).1).status = "pending" ∧
    (okOrder (createOrderRoute demoStore enReq 7).1).confirmationScript ≠ none ∧
    (okOrder (createOrderRoute demoStore enReq 7).1).confirmationScript ≠ some "" :=
  c3_created_order demoStore enReq 7 (okOrder (createOrderRoute demoStore enReq 7).1)
    (createOrderRoute demoStore enReq 7).2 (Or.inr (Or.inl rfl)) rfl

/-- An order request whose `language` is not a supported code. -/
def deReq : OrderRequest :=
  { productId := some "id-0"
    customerName := some "Ali"
    customerPhone := some "555"
    language := some "de" }

/-- The order the endpoint then creates: status pending but a null
confirmation script. -/
def deOrder : Order :=
  { id := "id-1"
    productId := "id-0"
    customerName := "Ali"
    customerPhone := "555"
    customerAddress := none
    customerCity := none
    notes := none
    quantity := 1
    status := "pending"
    confirmationScript := none
    language := "de"
    createdAt := 7 }

/-- Counterexample to C3 as stated: with `language: "de"` and an existing
product the endpoint still creates (and returns) an order, but its
`confirmationScript` is null, not a non-empty string. -/
theorem c3_counterexample :
    (createOrderRoute demoStore deReq 7).1 = RouteResult.ok deOrder ∧
    deOrder.confirmationScript = none :=
  ⟨by decide, rfl⟩

/-- Everything `generateProductPDF` renders before the generation date:
a function of the product and language only. -/
def pdfBeforeDate (p : Product) (d : PartialLangMap String) (lang : Language) : String :=
  "<!DOCTYPE html>\n<html dir=\"" ++ productPdfMid p d lang

/-- The fixed text after the generation date. -/
def pdfAfterDate : String := "</p>\n  </div>\n</body>\n</html>"

/-- C6: the product document is a pure function of the product and the
language apart from the injected generation date: the output decomposes
as a date-independent prefix, the date, and a constant suffix, so two
runs on the same unmodified product are byte-identical outside the
footer's date. -/
theorem c6_pdf_date_only (p : Product) (d : PartialLangMap String)
    (lang : Language) (today : String) (h : p.descriptions = some d) :
    generateProductPDF p lang today =
      Except.ok (pdfBeforeDate p d lang ++ today ++ pdfAfterDate) := by
  have hgrp : pdfLead ++ productPdfMid p d lang ++ today ++ pdfDateTail =
      pdfLead ++ (productPdfMid p d lang ++ today) ++ pdfDateTail :=
    String.ext (by simp [String.data_append])
  unfold generateProductPDF
  simp only [h]
  refine congrArg Except.ok ?_
  apply String.ext
  rw [hgrp, jsTrim_data _ _ _ (by decide) (by decide)]
  rw [show trimLeftC pdfLead.data = ("<!DOCTYPE html>\n<html dir=\"").data from by decide]
  rw [show trimRightC pdfDateTail.data = pdfAfterDate.data from by decide]
  simp [pdfBeforeDate, String.data_append]

/-- Witness for C6 at a concrete product, language and date. -/
theorem c6_pdf_date_only_witness :
    generateProductPDF demoProduct Language.en "10/12/2025" =
      Except.ok (pdfBeforeDate demoProduct demoDesc Language.en ++ "10/12/2025" ++
        pdfAfterDate) :=
  c6_pdf_date_only demoProduct demoDesc Language.en "10/12/2025" rfl

/-! C1 fixtures: the claim's concrete product and customer, generic in
the English product description. -/

/-- Descriptions for the chair product; only the `en` entry reaches the
English script. -/
def chairDesc (descEn : String) : PartialLangMap String :=
  ⟨some "", some descEn, some ""⟩

/-- The claim's product: name `"Chair"`, price `"$50"`. -/
def chairProduct (descEn : String) : Product :=
  { id := "id-0"
    name := "Chair"
    imageUrl := "/uploads/chair.png"
    descriptions := some (chairDesc descEn)
    benefits := some bfDefault
    features := some bfDefault
    price := some "$50"
    category := none
    createdAt := 10 }

/-- The claim's customer: Ali, phone 555, quantity 2, no address or
city. -/
def aliCustomer : ScriptCustomer :=
  { customerName := "Ali", customerPhone := "555", quantity := 2 }

/-- The English confirmation script for the claim's inputs. -/
def c1Script (descEn : String) : String :=
  enScript (chairProduct descEn) (chairDesc descEn) aliCustomer

/-- Everything of that script before the interpolated description. -/
def c1Pre : List Char :=
  ("Hello " ++ "Ali" ++
   ",\n\nThank you for your interest in our product.\n\nOrder Details:\nProduct: " ++
   "Chair" ++ "\nQuantity: " ++ "2" ++ "\n" ++ "Price: " ++ "$50" ++
   "\n\nProduct Description:\n").data

/-- Everything of that script after the interpolated description (the
city and address lines collapse to empty strings). -/
def c1Post : List Char :=
  ("\n\n" ++ "\n" ++
   "\n\nDo you confirm this order?\n\nWe look forward to your response.\nThank you for your trust.").data

/-- The claim's script decomposes as fixed text around the description. -/
lemma c1Script_data (descEn : String) :
    (c1Script descEn).data = c1Pre ++ descEn.data ++ c1Post := by
  unfold c1Script enScript
  rw [jsTrim_data _ _ _ (by decide) (by decide)]
  rw [show trimLeftC enLead.data = ("Hello ").data from by decide]
  rw [show trimRightC enTail.data =
    ("\n\nDo you confirm this order?\n\nWe look forward to your response.\nThank you for your trust.").data from by decide]
  have h2 : (toString (2 : Nat)) = "2" := rfl
  simp [enMid, chairProduct, chairDesc, aliCustomer, jsCondStr, undefInterp,
    c1Pre, c1Post, h2, String.data_append, List.append_assoc]

/-- A single-line probe string absent from the fixed template text and
from the description does not occur in the script at all. -/
lemma c1_not_in_script {sub : String} (descEn : String)
    (hnl : Char.ofNat 10 ∉ sub.data)
    (hpre : ¬ (sub.data <:+: c1Pre.dropLast))
    (hdesc : ¬ (sub.data <:+: descEn.data))
    (hpost : ¬ (sub.data <:+: c1Post.tail)) :
    ¬ (sub.data <:+: (c1Script descEn).data) := by
  intro hin
  rw [c1Script_data] at hin
  rw [show c1Pre = c1Pre.dropLast ++ [Char.ofNat 10] from by decide] at hin
  rw [show ((c1Pre.dropLast ++ [Char.ofNat 10]) ++ descEn.data) ++ c1Post =
      c1Pre.dropLast ++ Char.ofNat 10 :: (descEn.data ++ c1Post) from by simp] at hin
  rcases infix_split_at_sep hnl hin with hA | hB
  · exact hpre hA
  · rw [show c1Post = Char.ofNat 10 :: c1Post.tail from by decide] at hB
    rcases infix_split_at_sep hnl hB with hA2 | hB2
    · exact hdesc hA2
    · exact hpost hB2

/-- C1 (amended): for language `"en"`, the chair/Ali order confirmation
script literally contains `"Chair"`, `"$50"`, `"Ali"` and `"2"` and
contains no `"City:"` or `"Address:"` line — but it does NOT contain the
customer phone `"555"`: no template interpolates `customerPhone`. The
description is assumed not to contain the probe strings itself. -/
theorem c1_script_contents (descEn : String)
    (h1 : ¬ (("City:").data <:+: descEn.data))
    (h2 : ¬ (("Address:").data <:+: descEn.data))
    (h3 : ¬ (("555").data <:+: descEn.data)) :
    generateConfirmationScript (chairProduct descEn) aliCustomer "en" =
      Except.ok (some (c1Script descEn)) ∧
    (("Chair").data <:+: (c1Script descEn).data) ∧
    (("$50").data <:+: (c1Script descEn).data) ∧
    (("Ali").data <:+: (c1Script descEn).data) ∧
    (("2").data <:+: (c1Script descEn).data) ∧
    ¬ (("City:").data <:+: (c1Script descEn).data) ∧
    ¬ (("Address:").data <:+: (c1Script descEn).data) ∧
    ¬ (("555").data <:+: (c1Script descEn).data) := by
  refine ⟨?_, ?_, ?_, ?_, ?_, ?_, ?_, ?_⟩
  · simp [generateConfirmationScript, chairProduct, scriptsLookup, c1Script,
      chairDesc, aliCustomer]
  · rw [c1Script_data]
    exact infix_extend_right (infix_extend_right (by decide))
  · rw [c1Script_data]
    exact infix_extend_right (infix_extend_right (by decide))
  · rw [c1Script_data]
    exact infix_extend_right (infix_extend_right (by decide))
  · rw [c1Script_data]
    exact infix_extend_right (infix_extend_right (by decide))
  · exact c1_not_in_script descEn (by decide) (by decide) h1 (by decide)
  · exact c1_not_in_script descEn (by decide) (by decide) h2 (by decide)
  · exact c1_not_in_script descEn (by decide) (by decide) h3 (by decide)

/-- Counterexample to C1 as stated: for a concrete description the
script does not contain the substring `"555"` — the templates never
interpolate the customer phone. -/
theorem c1_counterexample :
    ¬ (("555").data <:+: (c1Script "A classic wooden chair.").data) :=
  c1_not_in_script "A classic wooden chair." (by decide) (by decide) (by decide)
    (by decide)

/-- Witness for C1 (amended) at a concrete description. -/
theorem c1_script_contents_witness :
    generateConfirmationScript (chairProduct "A classic wooden chair.")
        aliCustomer "en" =
      Except.ok (some (c1Script "A classic wooden chair.")) ∧
    (("Chair").data <:+: (c1Script "A classic wooden chair.").data) ∧
    (("$50").data <:+: (c1Script "A classic wooden chair.").data) ∧
    (("Ali").data <:+: (c1Script "A classic wooden chair.").data) ∧
    (("2").data <:+: (c1Script "A classic wooden chair.").data) ∧
    ¬ (("City:").data <:+: (c1Script "A classic wooden chair.").data) ∧
    ¬ (("Address:").data <:+: (c1Script "A classic wooden chair.").data) ∧
    ¬ (("555").data <:+: (c1Script "A classic wooden chair.").data) :=
  c1_script_contents "A classic wooden chair." (by decide) (by decide) (by decide)

end ProductApp
